import Mathlib

/-!
Verification of the identifier-validation core of the `lvgl` repository
(Belgian RRN national-registry numbers and the three period parsers
`Kwartaal`, `BosaMonth`, `CipalMonth` from `src/types.rs`), via a shallow
embedding of the Rust code: strings are lists of characters, Rust
`Result<T, E>` is `Except`, Rust integer parsing (`str::parse::<uN>`) is
modelled with its sign handling, digit check and overflow bound.
-/

deriving instance DecidableEq for Except

namespace Lvgl

/-- Rust `char::is_whitespace`: the Unicode `White_Space` property. -/
def isRustWhitespace (c : Char) : Bool :=
  (9 ≤ c.toNat && c.toNat ≤ 13) || c.toNat = 32 || c.toNat = 0x85 ||
  c.toNat = 0xA0 || c.toNat = 0x1680 ||
  (0x2000 ≤ c.toNat && c.toNat ≤ 0x200A) ||
  c.toNat = 0x2028 || c.toNat = 0x2029 || c.toNat = 0x202F ||
  c.toNat = 0x205F || c.toNat = 0x3000

/-- Rust `str::trim`: remove leading and trailing whitespace. -/
def rustTrim (s : List Char) : List Char :=
  ((s.dropWhile isRustWhitespace).reverse.dropWhile isRustWhitespace).reverse

/-- Rust `str::replace(&seps[..], "")`: delete every occurrence of the
given separator characters. -/
def stripChars (seps : List Char) (s : List Char) : List Char :=
  s.filter (fun c => !(seps.contains c))

/-- ASCII decimal digit test (`char::to_digit(10)` succeeds). -/
def isDigitChar (c : Char) : Bool :=
  48 ≤ c.toNat && c.toNat ≤ 57

/-- Value of one ASCII digit, `none` on any other character. -/
def digitVal (c : Char) : Option Nat :=
  if isDigitChar c then some (c.toNat - 48) else none

/-- Accumulating base-10 evaluation of a digit string; `none` as soon as a
non-digit appears (Rust `from_str_radix` digit loop). -/
def parseDigitsAux (acc : Nat) : List Char → Option Nat
  | [] => some acc
  | c :: cs =>
    match digitVal c with
    | some d => parseDigitsAux (acc * 10 + d) cs
    | none => none

/-- Base-10 value of an all-digit string (most significant digit first). -/
def digitsVal (s : List Char) : Nat :=
  s.foldl (fun a c => a * 10 + (c.toNat - 48)) 0

/-- Rust `str::parse::<uN>` where `max` is the largest value of the target
unsigned type: empty input fails, a single leading `+` is allowed, a
leading `-` fails for unsigned types, any non-digit fails, and a value
above `max` fails (overflow). -/
def rustParseNat (max : Nat) (s : List Char) : Option Nat :=
  match s with
  | [] => none
  | c :: cs =>
    if c = '+' then
      match cs with
      | [] => none
      | _ =>
        match parseDigitsAux 0 cs with
        | some v => if v ≤ max then some v else none
        | none => none
    else
      match parseDigitsAux 0 s with
      | some v => if v ≤ max then some v else none
      | none => none

def u32Max : Nat := 4294967295
def u16Max : Nat := 65535
def u8Max : Nat := 255

/-- `Gender` from `src/types.rs` (`M` debug-prints as "Male", `F` as
"Female"). -/
inductive Gender : Type
  | M : Gender
  | F : Gender
deriving DecidableEq, Repr

/-- `RrnError` from `src/types.rs`; the `ParseIntError` payload is not
observed by any caller, so it is dropped. -/
inductive RrnError : Type
  | InvalidLength : RrnError
  | InvalidControl : RrnError
  | ParseIntError : RrnError
deriving DecidableEq, Repr

/-- `Rrn` from `src/types.rs`: a wrapper around the stored string;
equality (Rust `PartialEq, Eq`) is structural. -/
structure Rrn : Type where
  rrn : List Char
deriving DecidableEq, Repr

/-- Shared normalization used by `Rrn::new` and `Kwartaal::new`:
`s.trim().replace(&['.', '-'][..], "")`. -/
def trimStripDotDash (s : List Char) : List Char :=
  stripChars ['.', '-'] (rustTrim s)

/-- `Rrn::new`: trim, strip `.` and `-`, then accept length 11 as-is,
left-pad length 10 with one `0` and length 9 with two, and reject any
other length. -/
def Rrn.new (s : List Char) : Except RrnError Rrn :=
  let rrn := trimStripDotDash s
  if rrn.length = 11 then .ok ⟨rrn⟩
  else if rrn.length = 10 then .ok ⟨'0' :: rrn⟩
  else if rrn.length = 9 then .ok ⟨'0' :: '0' :: rrn⟩
  else .error .InvalidLength

/-- `Rrn::check`: parse the 9-digit base and 2-digit control, try the
pre-2000 checksum `97 - base % 97` and then the post-2000 checksum
`97 - (base + 2000000000) % 97`, and on a match derive the gender from
the parity of the 3-digit sequence field (characters 7-9).  The `u32`
addition `base + 2000000000` cannot overflow: `base` comes from at most
9 characters, so `base < 10^9`. -/
def Rrn.check (r : Rrn) : Except RrnError Gender :=
  match rustParseNat u32Max (r.rrn.take 9) with
  | none => .error .ParseIntError
  | some base =>
    match rustParseNat u32Max (r.rrn.drop 9) with
    | none => .error .ParseIntError
    | some control =>
      if 97 - base % 97 = control then
        match rustParseNat u32Max ((r.rrn.drop 6).take 3) with
        | none => .error .ParseIntError
        | some id => if id % 2 = 0 then .ok Gender.F else .ok Gender.M
      else if 97 - (base + 2000000000) % 97 = control then
        match rustParseNat u32Max ((r.rrn.drop 6).take 3) with
        | none => .error .ParseIntError
        | some id => if id % 2 = 0 then .ok Gender.F else .ok Gender.M
      else .error .InvalidControl

/-- `KwartaalError` from `src/types.rs`. -/
inductive KwartaalError : Type
  | InvalidYear : KwartaalError
  | InvalidQuarter : KwartaalError
  | InvalidLength : KwartaalError
  | ParseIntError : KwartaalError
deriving DecidableEq, Repr

/-- `Kwartaal` from `src/types.rs`: the canonical `year` + `quarter`
period; equality is structural. -/
structure Kwartaal : Type where
  year : Nat
  quarter : Nat
deriving DecidableEq, Repr

/-- `Kwartaal::new`: trim, strip `.` and `-`, require exactly 5
characters, parse characters 1-4 as the year (`u16`) with range
1970-2100, then character 5 as the quarter (`u8`) with range 1-4. -/
def Kwartaal.new (s : List Char) : Except KwartaalError Kwartaal :=
  let kwart := trimStripDotDash s
  if kwart.length = 5 then
    match rustParseNat u16Max (kwart.take 4) with
    | none => .error .ParseIntError
    | some year =>
      if year < 1970 then .error .InvalidYear
      else if year > 2100 then .error .InvalidYear
      else
        match rustParseNat u8Max (kwart.drop 4) with
        | none => .error .ParseIntError
        | some quarter =>
          if quarter < 1 then .error .InvalidQuarter
          else if quarter > 4 then .error .InvalidQuarter
          else .ok ⟨year, quarter⟩
  else .error .InvalidLength

/-- `MonthError` from `src/types.rs`. -/
inductive MonthError : Type
  | InvalidYear : MonthError
  | InvalidMonth : MonthError
  | InvalidLength : MonthError
  | ParseIntError : MonthError
deriving DecidableEq, Repr

/-- `BosaMonth` from `src/types.rs`: year-first month code. -/
structure BosaMonth : Type where
  year : Nat
  month : Nat
deriving DecidableEq, Repr

/-- `BosaMonth::new`: trim only (no separator stripping), require exactly
6 characters, parse characters 1-4 as the year (`u16`) with range
1970-2100, then characters 5-6 as the month (`u8`) with range 1-12. -/
def BosaMonth.new (s : List Char) : Except MonthError BosaMonth :=
  let month := rustTrim s
  if month.length = 6 then
    match rustParseNat u16Max (month.take 4) with
    | none => .error .ParseIntError
    | some year =>
      if year < 1970 then .error .InvalidYear
      else if year > 2100 then .error .InvalidYear
      else
        match rustParseNat u8Max (month.drop 4) with
        | none => .error .ParseIntError
        | some m =>
          if m < 1 then .error .InvalidMonth
          else if m > 12 then .error .InvalidMonth
          else .ok ⟨year, m⟩
  else .error .InvalidLength

/-- `BosaMonth::to_kwartaal`: fixed month-to-quarter mapping, year
preserved; the unreachable fallback arm of the Rust `match` yields 0. -/
def BosaMonth.to_kwartaal (b : BosaMonth) : Kwartaal :=
  let quarter :=
    if b.month = 1 ∨ b.month = 2 ∨ b.month = 3 then 1
    else if b.month = 4 ∨ b.month = 5 ∨ b.month = 6 then 2
    else if b.month = 7 ∨ b.month = 8 ∨ b.month = 9 then 3
    else if b.month = 10 ∨ b.month = 11 ∨ b.month = 12 then 4
    else 0
  ⟨b.year, quarter⟩

/-- `CipalMonth` from `src/types.rs`: month-first month code. -/
structure CipalMonth : Type where
  year : Nat
  month : Nat
deriving DecidableEq, Repr

/-- Field parsing of `CipalMonth::new` after length normalization:
characters 3-6 of the 6-character string are the year (`u16`, range
1970-2100, checked first), characters 1-2 the month (`u8`, range 1-12,
checked second). -/
def cipalFields (m : List Char) : Except MonthError CipalMonth :=
  match rustParseNat u16Max ((m.drop 2).take 4) with
  | none => .error .ParseIntError
  | some year =>
    if year < 1970 then .error .InvalidYear
    else if year > 2100 then .error .InvalidYear
    else
      match rustParseNat u8Max (m.take 2) with
      | none => .error .ParseIntError
      | some month =>
        if month < 1 then .error .InvalidMonth
        else if month > 12 then .error .InvalidMonth
        else .ok ⟨year, month⟩

/-- `CipalMonth::new`: trim, strip `/`; a 5-character result is
left-padded with `0` to 6 characters, a 6-character result is used
as-is, anything else is `InvalidLength`; then the fields are parsed by
`cipalFields`. -/
def CipalMonth.new (s : List Char) : Except MonthError CipalMonth :=
  let m := stripChars ['/'] (rustTrim s)
  if m.length = 5 then cipalFields ('0' :: m)
  else if m.length = 6 then cipalFields m
  else .error .InvalidLength

/-- `CipalMonth::to_kwartaal`: same mapping as `BosaMonth.to_kwartaal`. -/
def CipalMonth.to_kwartaal (c : CipalMonth) : Kwartaal :=
  let quarter :=
    if c.month = 1 ∨ c.month = 2 ∨ c.month = 3 then 1
    else if c.month = 4 ∨ c.month = 5 ∨ c.month = 6 then 2
    else if c.month = 7 ∨ c.month = 8 ∨ c.month = 9 then 3
    else if c.month = 10 ∨ c.month = 11 ∨ c.month = 12 then 4
    else 0
  ⟨c.year, quarter⟩

example : Kwartaal.new ("20211".data) = .ok ⟨2021, 1⟩ := by decide
example : Kwartaal.new ("2021".data) = .error KwartaalError.InvalidLength := by decide
example : Kwartaal.new ("abcd1".data) = .error KwartaalError.ParseIntError := by decide
example : Kwartaal.new ("19691".data) = .error KwartaalError.InvalidYear := by decide
example : Kwartaal.new ("20210".data) = .error KwartaalError.InvalidQuarter := by decide
example : Kwartaal.new ("20215".data) = .error KwartaalError.InvalidQuarter := by decide
example : BosaMonth.new ("202101".data) = .ok ⟨2021, 1⟩ := by decide
example : BosaMonth.new ("202113".data) = .error MonthError.InvalidMonth := by decide
example : BosaMonth.new ("196901".data) = .error MonthError.InvalidYear := by decide
example : CipalMonth.new ("01/2021".data) = .ok ⟨2021, 1⟩ := by decide
example : CipalMonth.new ("1/2021".data) = .ok ⟨2021, 1⟩ := by decide
example : CipalMonth.new ("13/2021".data) = .error MonthError.InvalidMonth := by decide
example : CipalMonth.new ("01/21".data) = .error MonthError.InvalidLength := by decide
example : CipalMonth.new ("01/1969".data) = .error MonthError.InvalidYear := by decide
example : CipalMonth.new ("13/1969".data) = .error MonthError.InvalidYear := by decide
example : Rrn.new ("- 123456789 -".data) = .ok ⟨" 123456789 ".data⟩ := by decide
example : Rrn.new (" 123456789 ".data) = .ok ⟨"00123456789".data⟩ := by decide

example : Rrn.new ("69.10.01-363.59".data) = .ok ⟨"69100136359".data⟩ := by decide
example : (Rrn.mk ("69100136359".data)).check = .ok Gender.M := by decide
example : (Rrn.mk ("95022899874".data)).check = .ok Gender.F := by decide
example : (Rrn.mk ("02022404596".data)).check = .ok Gender.M := by decide
example : (Rrn.mk ("95022899873".data)).check = .error RrnError.InvalidControl := by decide

theorem parseDigitsAux_digits : ∀ (l : List Char) (a : Nat),
    (∀ c ∈ l, isDigitChar c = true) →
    parseDigitsAux a l = some (l.foldl (fun x c => x * 10 + (c.toNat - 48)) a) := by
  intro l
  induction l with
  | nil => intro a _; rfl
  | cons c cs ih =>
    intro a h
    have hc : isDigitChar c = true := h c (by simp)
    simp only [parseDigitsAux, digitVal, hc, if_pos, List.foldl_cons]
    exact ih _ (fun d hd => h d (List.mem_cons_of_mem _ hd))

theorem foldl_digits_lt : ∀ (l : List Char) (a : Nat),
    (∀ c ∈ l, isDigitChar c = true) →
    l.foldl (fun x c => x * 10 + (c.toNat - 48)) a < (a + 1) * 10 ^ l.length := by
  intro l
  induction l with
  | nil =>
    intro a _
    simp only [List.foldl_nil, List.length_nil, pow_zero, mul_one]
    omega
  | cons c cs ih =>
    intro a h
    have hc : isDigitChar c = true := h c (by simp)
    have hd : c.toNat - 48 ≤ 9 := by
      simp only [isDigitChar, Bool.and_eq_true, decide_eq_true_eq] at hc
      omega
    have step := ih (a * 10 + (c.toNat - 48)) (fun d hd => h d (List.mem_cons_of_mem _ hd))
    calc List.foldl (fun x c => x * 10 + (c.toNat - 48)) a (c :: cs)
        = List.foldl (fun x c => x * 10 + (c.toNat - 48)) (a * 10 + (c.toNat - 48)) cs := by
          simp [List.foldl_cons]
      _ < (a * 10 + (c.toNat - 48) + 1) * 10 ^ cs.length := step
      _ ≤ ((a + 1) * 10) * 10 ^ cs.length := by
          exact Nat.mul_le_mul_right _ (by omega)
      _ = (a + 1) * 10 ^ (c :: cs).length := by
          rw [List.length_cons, pow_succ]
          ring

theorem digitsVal_lt (l : List Char) (h : ∀ c ∈ l, isDigitChar c = true) :
    digitsVal l < 10 ^ l.length := by
  have := foldl_digits_lt l 0 h
  simpa [digitsVal] using this

theorem rustParseNat_digits (max : Nat) (l : List Char) (hne : l ≠ [])
    (hd : ∀ c ∈ l, isDigitChar c = true) (hb : digitsVal l ≤ max) :
    rustParseNat max l = some (digitsVal l) := by
  cases l with
  | nil => exact absurd rfl hne
  | cons c cs =>
    have hc : isDigitChar c = true := hd c (by simp)
    have hplus : ¬ c = '+' := by
      intro h
      rw [h] at hc
      exact absurd hc (by decide)
    simp only [rustParseNat]
    rw [if_neg hplus, parseDigitsAux_digits _ _ hd]
    simp only [digitsVal] at hb ⊢
    rw [if_pos hb]

theorem rustParseNat_u32_of_digits (l : List Char)
    (hd : ∀ c ∈ l, isDigitChar c = true) (hlen : l.length ≤ 9) (hne : l ≠ []) :
    rustParseNat u32Max l = some (digitsVal l) := by
  apply rustParseNat_digits _ _ hne hd
  have h1 := digitsVal_lt l hd
  have h2 : 10 ^ l.length ≤ 10 ^ 9 := Nat.pow_le_pow_right (by omega) hlen
  have h3 : (10 : Nat) ^ 9 ≤ u32Max + 1 := by norm_num [u32Max]
  omega

/-- C1: for an `Rrn` whose stored 11-character string is all decimal
digits, `check` splits it into the 9-digit base and the 2-digit control
and returns `Ok` exactly when the control equals the pre-2000 checksum
`97 - base % 97` or, failing that, the post-2000 checksum
`97 - ((base + 2000000000) % 97)`; if neither matches it returns
`InvalidControl`, and on success the gender is `F` (Female) when the
3-digit sequence field at characters 7-9 is even and `M` (Male) when it
is odd. -/
theorem rrn_check_spec (r : Rrn) (hlen : r.rrn.length = 11)
    (hdig : ∀ c ∈ r.rrn, isDigitChar c = true) :
    (digitsVal (r.rrn.drop 9) = 97 - digitsVal (r.rrn.take 9) % 97 ∨
       digitsVal (r.rrn.drop 9) =
         97 - (digitsVal (r.rrn.take 9) + 2000000000) % 97 →
       r.check = .ok (if digitsVal ((r.rrn.drop 6).take 3) % 2 = 0
         then Gender.F else Gender.M)) ∧
    (digitsVal (r.rrn.drop 9) ≠ 97 - digitsVal (r.rrn.take 9) % 97 →
       digitsVal (r.rrn.drop 9) ≠
         97 - (digitsVal (r.rrn.take 9) + 2000000000) % 97 →
       r.check = .error RrnError.InvalidControl) := by
  have hbase : rustParseNat u32Max (r.rrn.take 9) =
      some (digitsVal (r.rrn.take 9)) := by
    apply rustParseNat_u32_of_digits
    · exact fun c hc => hdig c (List.take_subset _ _ hc)
    · rw [List.length_take]; omega
    · have h9 : (r.rrn.take 9).length = 9 := by rw [List.length_take]; omega
      intro h
      rw [h] at h9
      simp at h9
  have hctl : rustParseNat u32Max (r.rrn.drop 9) =
      some (digitsVal (r.rrn.drop 9)) := by
    apply rustParseNat_u32_of_digits
    · exact fun c hc => hdig c (List.drop_subset _ _ hc)
    · rw [List.length_drop]; omega
    · have h2 : (r.rrn.drop 9).length = 2 := by rw [List.length_drop]; omega
      intro h
      rw [h] at h2
      simp at h2
  have hseq : rustParseNat u32Max ((r.rrn.drop 6).take 3) =
      some (digitsVal ((r.rrn.drop 6).take 3)) := by
    apply rustParseNat_u32_of_digits
    · exact fun c hc => hdig c (List.drop_subset _ _ (List.take_subset _ _ hc))
    · rw [List.length_take]; omega
    · have h3 : ((r.rrn.drop 6).take 3).length = 3 := by
        rw [List.length_take, List.length_drop]; omega
      intro h
      rw [h] at h3
      simp at h3
  constructor
  · intro h
    simp only [Rrn.check, hbase, hctl, hseq]
    rcases h with h | h
    · rw [if_pos h.symm]
      split <;> rfl
    · by_cases hpre : 97 - digitsVal (r.rrn.take 9) % 97 = digitsVal (r.rrn.drop 9)
      · rw [if_pos hpre]
        split <;> rfl
      · rw [if_neg hpre, if_pos h.symm]
        split <;> rfl
  · intro h1 h2
    simp only [Rrn.check, hbase, hctl, hseq]
    rw [if_neg (fun hh => h1 hh.symm), if_neg (fun hh => h2 hh.symm)]

/-- C1 witness: the repository's own test vector `"69100136359"` (all
digits, pre-2000 scheme, odd sequence field) checks as `Male`. -/
theorem rrn_check_spec_witness :
    (Rrn.mk ("69100136359".data)).check = .ok Gender.M := by
  have h := (rrn_check_spec (Rrn.mk ("69100136359".data))
    (by decide) (by decide)).1 (Or.inl (by decide))
  simpa using h

/-- C2: `Rrn::new` trims, strips `.` and `-`, accepts a result of length
9, 10 or 11 left-padded with zeros to 11 characters, and rejects every
other length with `InvalidLength`. -/
theorem rrn_new_spec (s : List Char) :
    (9 ≤ (trimStripDotDash s).length → (trimStripDotDash s).length ≤ 11 →
       Rrn.new s = .ok ⟨List.replicate (11 - (trimStripDotDash s).length) '0' ++
         trimStripDotDash s⟩) ∧
    ((trimStripDotDash s).length < 9 ∨ 11 < (trimStripDotDash s).length →
       Rrn.new s = .error RrnError.InvalidLength) := by
  constructor
  · intro h9 h11
    have hc : (trimStripDotDash s).length = 11 ∨ (trimStripDotDash s).length = 10 ∨
        (trimStripDotDash s).length = 9 := by omega
    rcases hc with h | h | h <;>
      simp [Rrn.new, h, List.replicate_succ]
  · intro h
    simp only [Rrn.new]
    rw [if_neg (by omega), if_neg (by omega), if_neg (by omega)]

/-- C2 witness: an 11-character normalization is stored as-is, 10- and
9-character ones are left-padded, an 8-character one is rejected. -/
theorem rrn_new_spec_witness :
    Rrn.new (" 69.10.01-363.59 ".data) = .ok ⟨"69100136359".data⟩ ∧
    Rrn.new ("0150901364".data) = .ok ⟨"00150901364".data⟩ ∧
    Rrn.new ("150901364".data) = .ok ⟨"00150901364".data⟩ ∧
    Rrn.new ("12345678".data) = .error RrnError.InvalidLength := by
  refine ⟨?_, ?_, ?_, ?_⟩
  · exact ((rrn_new_spec (" 69.10.01-363.59 ".data)).1
      (by decide) (by decide)).trans (by decide)
  · exact ((rrn_new_spec ("0150901364".data)).1
      (by decide) (by decide)).trans (by decide)
  · exact ((rrn_new_spec ("150901364".data)).1
      (by decide) (by decide)).trans (by decide)
  · exact (rrn_new_spec ("12345678".data)).2 (by decide)

theorem rrn_new_length (s : List Char) (r : Rrn) (h : Rrn.new s = .ok r) :
    r.rrn.length = 11 := by
  simp only [Rrn.new] at h
  split at h
  · rename_i h11
    cases h
    simpa using h11
  · split at h
    · rename_i h10
      cases h
      simpa using h10
    · split at h
      · rename_i h9
        cases h
        simpa using h9
      · cases h

theorem filter_idem (p : Char → Bool) (l : List Char) :
    List.filter p (List.filter p l) = List.filter p l :=
  List.filter_eq_self.mpr (fun _ ha => List.of_mem_filter ha)

theorem rrn_new_stored_stripped (s : List Char) (r : Rrn)
    (h : Rrn.new s = .ok r) :
    stripChars ['.', '-'] r.rrn = r.rrn := by
  have base : stripChars ['.', '-'] (trimStripDotDash s) = trimStripDotDash s := by
    simp only [trimStripDotDash, stripChars]
    exact filter_idem _ _
  simp only [Rrn.new] at h
  split at h
  · cases h
    exact base
  · split at h
    · cases h
      simpa [stripChars, List.filter_cons] using base
    · split at h
      · cases h
        simpa [stripChars, List.filter_cons] using base
      · cases h

/-- C4 counterexample: `Rrn::new` performs no digit validation, so the
stored canonical form of an accepted input need not consist of decimal
digits: 11 letters are accepted and stored verbatim. -/
theorem rrn_stored_digits_cex :
    Rrn.new ("abcdefghijk".data) = .ok ⟨"abcdefghijk".data⟩ ∧
    ¬ (∀ c ∈ ("abcdefghijk".data), isDigitChar c = true) := by decide

/-- C4 (amended): for every input accepted by `Rrn::new`, the stored
canonical form is a string of exactly 11 characters (not necessarily
digits; non-digits surface later as a parse error in `check`). -/
theorem rrn_stored_length (s : List Char) (r : Rrn) (h : Rrn.new s = .ok r) :
    r.rrn.length = 11 :=
  rrn_new_length s r h

/-- C4 witness: the stored form of the accepted 9-digit input
`"150901364"` has exactly 11 characters. -/
theorem rrn_stored_length_witness :
    (Rrn.mk ("00150901364".data)).rrn.length = 11 :=
  rrn_stored_length ("150901364".data) (Rrn.mk ("00150901364".data)) (by decide)

/-- C9 counterexample: normalization is not idempotent on every stored
string.  The input `"- 123456789 -"` has no surrounding whitespace, so
trimming keeps it and stripping `-` leaves the 11-character string
`" 123456789 "`, which is stored; re-applying `Rrn::new` to that stored
string trims it to 9 characters and pads to `"00123456789"`, a different
stored value. -/
theorem rrn_new_not_idempotent_cex :
    Rrn.new ("- 123456789 -".data) = .ok ⟨" 123456789 ".data⟩ ∧
    Rrn.new (" 123456789 ".data) = .ok ⟨"00123456789".data⟩ ∧
    Rrn.mk (" 123456789 ".data) ≠ Rrn.mk ("00123456789".data) := by decide

/-- C9 (amended): `Rrn::new` is idempotent on every stored string that
has no leading or trailing whitespace (re-applying it succeeds and
returns the same value), and any two accepted raw inputs whose stored
canonical strings coincide yield equal `Rrn` values. -/
theorem rrn_new_idempotent :
    (∀ s r, Rrn.new s = .ok r → rustTrim r.rrn = r.rrn →
       Rrn.new r.rrn = .ok r) ∧
    (∀ s₁ s₂ r₁ r₂, Rrn.new s₁ = .ok r₁ → Rrn.new s₂ = .ok r₂ →
       r₁.rrn = r₂.rrn → r₁ = r₂) := by
  constructor
  · intro s r h htrim
    have hlen := rrn_new_length s r h
    have hst := rrn_new_stored_stripped s r h
    simp only [Rrn.new, trimStripDotDash]
    rw [htrim, hst, if_pos hlen]
  · intro s₁ s₂ r₁ r₂ _ _ hrr
    cases r₁
    cases r₂
    cases hrr
    rfl

/-- C9 witness: the canonical string `"69100136359"` (no surrounding
whitespace) re-normalizes to itself, and the spec's example pair
`"69.10.01-363.59"` / `"69100136359"` yields equal `Rrn` values. -/
theorem rrn_new_idempotent_witness :
    Rrn.new ("69100136359".data) = .ok (Rrn.mk ("69100136359".data)) ∧
    Rrn.mk ("69100136359".data) = Rrn.mk ("69100136359".data) := by
  constructor
  · exact rrn_new_idempotent.1 ("69.10.01-363.59".data)
      (Rrn.mk ("69100136359".data)) (by decide) (by decide)
  · exact rrn_new_idempotent.2 ("69.10.01-363.59".data) ("69100136359".data)
      (Rrn.mk ("69100136359".data)) (Rrn.mk ("69100136359".data))
      (by decide) (by decide) (by decide)

/-- C5: `Kwartaal::new` trims and strips `.` and `-`; a result that is
not exactly 5 characters is `InvalidLength`; otherwise the first 4
characters are parsed as the year (non-numeric is a parse error, a year
outside [1970, 2100] is `InvalidYear`) and the 5th character as the
quarter (non-numeric is a parse error, a quarter outside [1, 4] is
`InvalidQuarter`); otherwise the structured year/quarter value is
returned. -/
theorem kwartaal_new_spec (s : List Char) :
    ((trimStripDotDash s).length ≠ 5 →
       Kwartaal.new s = .error KwartaalError.InvalidLength) ∧
    ((trimStripDotDash s).length = 5 →
       rustParseNat u16Max ((trimStripDotDash s).take 4) = none →
       Kwartaal.new s = .error KwartaalError.ParseIntError) ∧
    (∀ y, (trimStripDotDash s).length = 5 →
       rustParseNat u16Max ((trimStripDotDash s).take 4) = some y →
       (y < 1970 ∨ 2100 < y) →
       Kwartaal.new s = .error KwartaalError.InvalidYear) ∧
    (∀ y, (trimStripDotDash s).length = 5 →
       rustParseNat u16Max ((trimStripDotDash s).take 4) = some y →
       1970 ≤ y → y ≤ 2100 →
       rustParseNat u8Max ((trimStripDotDash s).drop 4) = none →
       Kwartaal.new s = .error KwartaalError.ParseIntError) ∧
    (∀ y q, (trimStripDotDash s).length = 5 →
       rustParseNat u16Max ((trimStripDotDash s).take 4) = some y →
       1970 ≤ y → y ≤ 2100 →
       rustParseNat u8Max ((trimStripDotDash s).drop 4) = some q →
       (q < 1 ∨ 4 < q) →
       Kwartaal.new s = .error KwartaalError.InvalidQuarter) ∧
    (∀ y q, (trimStripDotDash s).length = 5 →
       rustParseNat u16Max ((trimStripDotDash s).take 4) = some y →
       1970 ≤ y → y ≤ 2100 →
       rustParseNat u8Max ((trimStripDotDash s).drop 4) = some q →
       1 ≤ q → q ≤ 4 →
       Kwartaal.new s = .ok ⟨y, q⟩) := by
  refine ⟨?_, ?_, ?_, ?_, ?_, ?_⟩
  · intro h
    simp only [Kwartaal.new]
    rw [if_neg h]
  · intro hlen hy
    simp only [Kwartaal.new]
    rw [if_pos hlen]
    simp [hy]
  · intro y hlen hy hrange
    simp only [Kwartaal.new]
    rw [if_pos hlen]
    simp only [hy]
    split_ifs <;> first | rfl | omega
  · intro y hlen hy h1970 h2100 hq
    simp only [Kwartaal.new]
    rw [if_pos hlen]
    simp only [hy, hq]
    split_ifs <;> first | rfl | omega
  · intro y q hlen hy h1970 h2100 hq hrange
    simp only [Kwartaal.new]
    rw [if_pos hlen]
    simp only [hy, hq]
    split_ifs <;> first | rfl | omega
  · intro y q hlen hy h1970 h2100 hq hq1 hq4
    simp only [Kwartaal.new]
    rw [if_pos hlen]
    simp only [hy, hq]
    split_ifs <;> first | rfl | omega

/-- C5 witness: a valid quarter code and one input per error kind,
matching the repository's own test vectors. -/
theorem kwartaal_new_spec_witness :
    Kwartaal.new ("2021".data) = .error KwartaalError.InvalidLength ∧
    Kwartaal.new ("abcd1".data) = .error KwartaalError.ParseIntError ∧
    Kwartaal.new ("19691".data) = .error KwartaalError.InvalidYear ∧
    Kwartaal.new ("2021x".data) = .error KwartaalError.ParseIntError ∧
    Kwartaal.new ("20215".data) = .error KwartaalError.InvalidQuarter ∧
    Kwartaal.new ("20211".data) = .ok ⟨2021, 1⟩ :=
  ⟨(kwartaal_new_spec _).1 (by decide),
   (kwartaal_new_spec _).2.1 (by decide) (by decide),
   (kwartaal_new_spec _).2.2.1 1969 (by decide) (by decide) (by decide),
   (kwartaal_new_spec _).2.2.2.1 2021 (by decide) (by decide) (by decide)
     (by decide) (by decide),
   (kwartaal_new_spec _).2.2.2.2.1 2021 5 (by decide) (by decide) (by decide)
     (by decide) (by decide) (by decide),
   (kwartaal_new_spec _).2.2.2.2.2 2021 1 (by decide) (by decide) (by decide)
     (by decide) (by decide) (by decide) (by decide)⟩

/-- C6: `BosaMonth::new` trims only (no separator stripping); a result
that is not exactly 6 characters is `InvalidLength`; otherwise the first
4 characters are parsed as the year with range check 1970-2100 (else
`InvalidYear`) and the last 2 characters as the month, which must lie in
[1, 12] (else `InvalidMonth`); otherwise the structured year/month value
is returned. -/
theorem bosa_new_spec (s : List Char) :
    ((rustTrim s).length ≠ 6 →
       BosaMonth.new s = .error MonthError.InvalidLength) ∧
    ((rustTrim s).length = 6 →
       rustParseNat u16Max ((rustTrim s).take 4) = none →
       BosaMonth.new s = .error MonthError.ParseIntError) ∧
    (∀ y, (rustTrim s).length = 6 →
       rustParseNat u16Max ((rustTrim s).take 4) = some y →
       (y < 1970 ∨ 2100 < y) →
       BosaMonth.new s = .error MonthError.InvalidYear) ∧
    (∀ y, (rustTrim s).length = 6 →
       rustParseNat u16Max ((rustTrim s).take 4) = some y →
       1970 ≤ y → y ≤ 2100 →
       rustParseNat u8Max ((rustTrim s).drop 4) = none →
       BosaMonth.new s = .error MonthError.ParseIntError) ∧
    (∀ y m, (rustTrim s).length = 6 →
       rustParseNat u16Max ((rustTrim s).take 4) = some y →
       1970 ≤ y → y ≤ 2100 →
       rustParseNat u8Max ((rustTrim s).drop 4) = some m →
       (m < 1 ∨ 12 < m) →
       BosaMonth.new s = .error MonthError.InvalidMonth) ∧
    (∀ y m, (rustTrim s).length = 6 →
       rustParseNat u16Max ((rustTrim s).take 4) = some y →
       1970 ≤ y → y ≤ 2100 →
       rustParseNat u8Max ((rustTrim s).drop 4) = some m →
       1 ≤ m → m ≤ 12 →
       BosaMonth.new s = .ok ⟨y, m⟩) := by
  refine ⟨?_, ?_, ?_, ?_, ?_, ?_⟩
  · intro h
    simp only [BosaMonth.new]
    rw [if_neg h]
  · intro hlen hy
    simp only [BosaMonth.new]
    rw [if_pos hlen]
    simp [hy]
  · intro y hlen hy hrange
    simp only [BosaMonth.new]
    rw [if_pos hlen]
    simp only [hy]
    split_ifs <;> first | rfl | omega
  · intro y hlen hy h1970 h2100 hm
    simp only [BosaMonth.new]
    rw [if_pos hlen]
    simp only [hy, hm]
    split_ifs <;> first | rfl | omega
  · intro y m hlen hy h1970 h2100 hm hrange
    simp only [BosaMonth.new]
    rw [if_pos hlen]
    simp only [hy, hm]
    split_ifs <;> first | rfl | omega
  · intro y m hlen hy h1970 h2100 hm hm1 hm12
    simp only [BosaMonth.new]
    rw [if_pos hlen]
    simp only [hy, hm]
    split_ifs <;> first | rfl | omega

/-- C6 witness: a valid BOSA month code and one input per error kind,
matching the repository's own test vectors. -/
theorem bosa_new_spec_witness :
    BosaMonth.new ("2021".data) = .error MonthError.InvalidLength ∧
    BosaMonth.new ("abcd01".data) = .error MonthError.ParseIntError ∧
    BosaMonth.new ("196901".data) = .error MonthError.InvalidYear ∧
    BosaMonth.new ("2021xx".data) = .error MonthError.ParseIntError ∧
    BosaMonth.new ("202113".data) = .error MonthError.InvalidMonth ∧
    BosaMonth.new ("202101".data) = .ok ⟨2021, 1⟩ :=
  ⟨(bosa_new_spec _).1 (by decide),
   (bosa_new_spec _).2.1 (by decide) (by decide),
   (bosa_new_spec _).2.2.1 1969 (by decide) (by decide) (by decide),
   (bosa_new_spec _).2.2.2.1 2021 (by decide) (by decide) (by decide)
     (by decide) (by decide),
   (bosa_new_spec _).2.2.2.2.1 2021 13 (by decide) (by decide) (by decide)
     (by decide) (by decide) (by decide),
   (bosa_new_spec _).2.2.2.2.2 2021 1 (by decide) (by decide) (by decide)
     (by decide) (by decide) (by decide) (by decide)⟩

/-- C3 counterexample: in `CipalMonth::new` the year field is checked
before the month field.  `"13/1969"` has an out-of-range month (13) and
an out-of-range year (1969); the claim predicts the month-field error
`InvalidMonth`, but the code returns the year-field error
`InvalidYear`. -/
theorem cipal_order_cex :
    CipalMonth.new ("13/1969".data) = .error MonthError.InvalidYear ∧
    Except.error MonthError.InvalidYear ≠
      (.error MonthError.InvalidMonth : Except MonthError CipalMonth) := by
  decide

/-- C3 (amended): for every `CipalMonth::new` input passing the length
check, the year field (characters 3-6 of the normalized 6-character
string) is parsed and range-checked before the month field (characters
1-2), so any input whose month and year fields are both invalid yields
the year-field error (`InvalidYear` or a parse error), not the
month-field error. -/
theorem cipal_checks_year_first (s : List Char) (m : List Char)
    (hm : ((stripChars ['/'] (rustTrim s)).length = 5 ∧
             m = '0' :: stripChars ['/'] (rustTrim s)) ∨
          ((stripChars ['/'] (rustTrim s)).length = 6 ∧
             m = stripChars ['/'] (rustTrim s))) :
    (rustParseNat u16Max ((m.drop 2).take 4) = none →
       CipalMonth.new s = .error MonthError.ParseIntError) ∧
    (∀ y, rustParseNat u16Max ((m.drop 2).take 4) = some y →
       (y < 1970 ∨ 2100 < y) →
       CipalMonth.new s = .error MonthError.InvalidYear) := by
  have hnew : CipalMonth.new s = cipalFields m := by
    rcases hm with ⟨h5, hm⟩ | ⟨h6, hm⟩
    · simp only [CipalMonth.new]
      rw [if_pos h5, hm]
    · simp only [CipalMonth.new]
      rw [if_neg (by omega), if_pos h6, hm]
  constructor
  · intro hy
    rw [hnew]
    simp [cipalFields, hy]
  · intro y hy hrange
    rw [hnew]
    simp only [cipalFields, hy]
    split_ifs <;> first | rfl | omega

/-- C3 witness: on `"13/1969"` (both fields out of range) the amended
year-first order gives `InvalidYear`. -/
theorem cipal_checks_year_first_witness :
    CipalMonth.new ("13/1969".data) = .error MonthError.InvalidYear :=
  (cipal_checks_year_first ("13/1969".data) ("131969".data)
    (Or.inr ⟨by decide, by decide⟩)).2 1969 (by decide) (by decide)

/-- C7: `CipalMonth::new` trims and strips `/`; a 5-character result is
left-padded with one leading zero to 6 characters, a 6-character result
is used as-is, any other length is `InvalidLength`; in particular
`"1/2021"` succeeds, yields year 2021 and month 1, and is structurally
equal to the result for `"01/2021"`. -/
theorem cipal_new_spec :
    (∀ s, (stripChars ['/'] (rustTrim s)).length = 5 →
       CipalMonth.new s = cipalFields ('0' :: stripChars ['/'] (rustTrim s))) ∧
    (∀ s, (stripChars ['/'] (rustTrim s)).length = 6 →
       CipalMonth.new s = cipalFields (stripChars ['/'] (rustTrim s))) ∧
    (∀ s, (stripChars ['/'] (rustTrim s)).length ≠ 5 →
       (stripChars ['/'] (rustTrim s)).length ≠ 6 →
       CipalMonth.new s = .error MonthError.InvalidLength) ∧
    CipalMonth.new ("1/2021".data) = .ok ⟨2021, 1⟩ ∧
    CipalMonth.new ("1/2021".data) = CipalMonth.new ("01/2021".data) := by
  refine ⟨?_, ?_, ?_, by decide, by decide⟩
  · intro s h5
    simp only [CipalMonth.new]
    rw [if_pos h5]
  · intro s h6
    simp only [CipalMonth.new]
    rw [if_neg (by omega), if_pos h6]
  · intro s h5 h6
    simp only [CipalMonth.new]
    rw [if_neg h5, if_neg h6]

/-- C7 witness: `"1/2021"` normalizes to 5 characters and is handled by
the left-pad branch; `"01/2021"` normalizes to 6 characters and is used
as-is; `"01/21"` is rejected. -/
theorem cipal_new_spec_witness :
    CipalMonth.new ("1/2021".data) = cipalFields ("012021".data) ∧
    CipalMonth.new ("01/2021".data) = cipalFields ("012021".data) ∧
    CipalMonth.new ("01/21".data) = .error MonthError.InvalidLength :=
  ⟨(cipal_new_spec.1 ("1/2021".data) (by decide)).trans (by decide),
   (cipal_new_spec.2.1 ("01/2021".data) (by decide)).trans (by decide),
   cipal_new_spec.2.2.1 ("01/21".data) (by decide) (by decide)⟩

/-- C8: `to_kwartaal` maps months 1-3 to quarter 1, 4-6 to 2, 7-9 to 3
and 10-12 to 4, preserves the year, and the mapping is identical for
`BosaMonth` and `CipalMonth`: equal year/month inputs give structurally
equal `Kwartaal` values. -/
theorem to_kwartaal_spec :
    (∀ b : BosaMonth,
      (1 ≤ b.month ∧ b.month ≤ 3 → b.to_kwartaal = ⟨b.year, 1⟩) ∧
      (4 ≤ b.month ∧ b.month ≤ 6 → b.to_kwartaal = ⟨b.year, 2⟩) ∧
      (7 ≤ b.month ∧ b.month ≤ 9 → b.to_kwartaal = ⟨b.year, 3⟩) ∧
      (10 ≤ b.month ∧ b.month ≤ 12 → b.to_kwartaal = ⟨b.year, 4⟩)) ∧
    (∀ c : CipalMonth,
      (1 ≤ c.month ∧ c.month ≤ 3 → c.to_kwartaal = ⟨c.year, 1⟩) ∧
      (4 ≤ c.month ∧ c.month ≤ 6 → c.to_kwartaal = ⟨c.year, 2⟩) ∧
      (7 ≤ c.month ∧ c.month ≤ 9 → c.to_kwartaal = ⟨c.year, 3⟩) ∧
      (10 ≤ c.month ∧ c.month ≤ 12 → c.to_kwartaal = ⟨c.year, 4⟩)) ∧
    (∀ (b : BosaMonth) (c : CipalMonth), b.year = c.year →
       b.month = c.month → b.to_kwartaal = c.to_kwartaal) := by
  refine ⟨?_, ?_, ?_⟩
  · intro b
    obtain ⟨y, m⟩ := b
    refine ⟨fun h => ?_, fun h => ?_, fun h => ?_, fun h => ?_⟩ <;>
      · simp only [BosaMonth.to_kwartaal]
        have hm : m = 1 ∨ m = 2 ∨ m = 3 ∨ m = 4 ∨ m = 5 ∨ m = 6 ∨ m = 7 ∨
            m = 8 ∨ m = 9 ∨ m = 10 ∨ m = 11 ∨ m = 12 := by
          simp only at h
          omega
        split_ifs <;> simp_all <;> omega
  · intro c
    obtain ⟨y, m⟩ := c
    refine ⟨fun h => ?_, fun h => ?_, fun h => ?_, fun h => ?_⟩ <;>
      · simp only [CipalMonth.to_kwartaal]
        have hm : m = 1 ∨ m = 2 ∨ m = 3 ∨ m = 4 ∨ m = 5 ∨ m = 6 ∨ m = 7 ∨
            m = 8 ∨ m = 9 ∨ m = 10 ∨ m = 11 ∨ m = 12 := by
          simp only at h
          omega
        split_ifs <;> simp_all <;> omega
  · intro b c hy hm
    obtain ⟨by', bm⟩ := b
    obtain ⟨cy, cm⟩ := c
    simp only at hy hm
    subst hy
    subst hm
    rfl

/-- C8 witness: month 2 of 2021 collapses to quarter 1 for both month
code types, and the two conversions agree. -/
theorem to_kwartaal_spec_witness :
    BosaMonth.to_kwartaal ⟨2021, 2⟩ = (⟨2021, 1⟩ : Kwartaal) ∧
    CipalMonth.to_kwartaal ⟨2021, 2⟩ = (⟨2021, 1⟩ : Kwartaal) ∧
    BosaMonth.to_kwartaal ⟨2021, 2⟩ = CipalMonth.to_kwartaal ⟨2021, 2⟩ :=
  ⟨(to_kwartaal_spec.1 ⟨2021, 2⟩).1 (by decide),
   (to_kwartaal_spec.2.1 ⟨2021, 2⟩).1 (by decide),
   to_kwartaal_spec.2.2 ⟨2021, 2⟩ ⟨2021, 2⟩ (by decide) (by decide)⟩

theorem quarter_map_range (m : Nat) (h1 : 1 ≤ m) (h2 : m ≤ 12) :
    1 ≤ (if m = 1 ∨ m = 2 ∨ m = 3 then 1
      else if m = 4 ∨ m = 5 ∨ m = 6 then 2
      else if m = 7 ∨ m = 8 ∨ m = 9 then 3
      else if m = 10 ∨ m = 11 ∨ m = 12 then 4 else 0) ∧
    (if m = 1 ∨ m = 2 ∨ m = 3 then 1
      else if m = 4 ∨ m = 5 ∨ m = 6 then 2
      else if m = 7 ∨ m = 8 ∨ m = 9 then 3
      else if m = 10 ∨ m = 11 ∨ m = 12 then 4 else 0) ≤ 4 := by
  split_ifs <;> omega

theorem bosa_new_month_range (s : List Char) (b : BosaMonth)
    (h : BosaMonth.new s = .ok b) : 1 ≤ b.month ∧ b.month ≤ 12 := by
  simp only [BosaMonth.new] at h
  repeat' split at h
  all_goals cases h
  simp only
  omega

theorem cipalFields_month_range (m : List Char) (c : CipalMonth)
    (h : cipalFields m = .ok c) : 1 ≤ c.month ∧ c.month ≤ 12 := by
  simp only [cipalFields] at h
  repeat' split at h
  all_goals cases h
  simp only
  omega

theorem cipal_new_month_range (s : List Char) (c : CipalMonth)
    (h : CipalMonth.new s = .ok c) : 1 ≤ c.month ∧ c.month ≤ 12 := by
  simp only [CipalMonth.new] at h
  split at h
  · exact cipalFields_month_range _ _ h
  · split at h
    · exact cipalFields_month_range _ _ h
    · cases h

/-- C10: every `BosaMonth` and `CipalMonth` produced by its validating
constructor has a month in [1, 12], so `to_kwartaal` always returns a
quarter in [1, 4] and the fallback `match` arm that would produce
quarter 0 is unreachable. -/
theorem to_kwartaal_quarter_range :
    (∀ s b, BosaMonth.new s = .ok b →
       1 ≤ b.to_kwartaal.quarter ∧ b.to_kwartaal.quarter ≤ 4) ∧
    (∀ s c, CipalMonth.new s = .ok c →
       1 ≤ c.to_kwartaal.quarter ∧ c.to_kwartaal.quarter ≤ 4) := by
  constructor
  · intro s b h
    obtain ⟨h1, h2⟩ := bosa_new_month_range s b h
    simpa [BosaMonth.to_kwartaal] using quarter_map_range b.month h1 h2
  · intro s c h
    obtain ⟨h1, h2⟩ := cipal_new_month_range s c h
    simpa [CipalMonth.to_kwartaal] using quarter_map_range c.month h1 h2

/-- C10 witness: the constructed values for `"202112"` and `"12/2021"`
(month 12) convert to quarter 4, inside [1, 4]. -/
theorem to_kwartaal_quarter_range_witness :
    (1 ≤ (BosaMonth.mk 2021 12).to_kwartaal.quarter ∧
       (BosaMonth.mk 2021 12).to_kwartaal.quarter ≤ 4) ∧
    (1 ≤ (CipalMonth.mk 2021 12).to_kwartaal.quarter ∧
       (CipalMonth.mk 2021 12).to_kwartaal.quarter ≤ 4) :=
  ⟨to_kwartaal_quarter_range.1 ("202112".data) (BosaMonth.mk 2021 12)
     (by decide),
   to_kwartaal_quarter_range.2 ("12/2021".data) (CipalMonth.mk 2021 12)
     (by decide)⟩

end Lvgl
